import Mathlib

/-!
# HospitalInsights — formal model of the ingestion, normalization and join pipeline

A shallow embedding of the data-processing core of the HospitalInsights
repository (`src/data_processor.py`, `src/utils.py`, and the summary-report
part of `src/app.py`).

Strings (Python `str`) are modelled as lists of Unicode code points
(`List Nat`); `codes` injects Lean string literals.  Python's `str.upper`,
`str.lower` and `str.strip` are modelled at the ASCII level (the letter range
`a`–`z`/`A`–`Z` and the ASCII whitespace characters), which covers every
string the pipeline's keyword tables and canonical vocabularies contain.
Cell values are modelled by the inductive `Value`; pandas `NaN` is `Value.nullV`
and missing cells are `Option Value`.  Machine floats only ever enter the
modelled claims at integral values (registry identifiers such as `1.0`), so
`Value.floatV` carries an `Int` and stringifies with a trailing `.0`, exactly
as Python `str()` renders an integral float.
-/

/-- Code points of a Lean string literal, used to write concrete Python strings. -/
def codes (s : String) : List Nat := s.data.map Char.toNat

/-- ASCII uppercase of one code point (`a`–`z` ↦ `A`–`Z`), as in `str.upper`. -/
def upN (n : Nat) : Nat := if 97 ≤ n ∧ n ≤ 122 then n - 32 else n

/-- ASCII lowercase of one code point (`A`–`Z` ↦ `a`–`z`), as in `str.lower`. -/
def lowN (n : Nat) : Nat := if 65 ≤ n ∧ n ≤ 90 then n + 32 else n

/-- ASCII whitespace (space, tab, LF, VT, FF, CR), the characters `str.strip` removes. -/
def isWSb (n : Nat) : Bool := n = 32 || n = 9 || n = 10 || n = 11 || n = 12 || n = 13

/-- `str.upper` over a whole string. -/
def upperL (l : List Nat) : List Nat := l.map upN

/-- `str.lower` over a whole string. -/
def lowerL (l : List Nat) : List Nat := l.map lowN

/-- Drop trailing elements satisfying `p` (helper for `str.strip`). -/
def dropEnd (p : Nat → Bool) (l : List Nat) : List Nat :=
  ((l.reverse).dropWhile p).reverse

/-- Python `str.strip`: remove leading and trailing whitespace. -/
def trimL (l : List Nat) : List Nat := dropEnd isWSb (l.dropWhile isWSb)

/-- Python `needle in hay` prefix test (helper for substring containment). -/
def isPre (n l : List Nat) : Bool :=
  match n, l with
  | [], _ => true
  | _ :: _, [] => false
  | a :: n, b :: l => a = b && isPre n l

/-- Python substring containment `needle in hay`. -/
def containsL (n : List Nat) : List Nat → Bool
  | [] => isPre n []
  | x :: xs => isPre n (x :: xs) || containsL n xs

/-- Python `str.endswith`. -/
def endsWithL (sfx l : List Nat) : Bool := isPre sfx.reverse l.reverse

/-- Decimal digit string of a natural number. -/
def natCodes (n : Nat) : List Nat := (Nat.toDigits 10 n).map Char.toNat

/-- Python `str()` of an integer. -/
def intCodes (i : Int) : List Nat :=
  if i < 0 then 45 :: natCodes i.natAbs else natCodes i.natAbs

/-- A spreadsheet cell value as pandas sees it: integer, (integral) float,
string, or null/NaN. -/
inductive Value where
  | intV (n : Int)
  | floatV (n : Int)
  | strV (s : List Nat)
  | nullV
deriving DecidableEq, Repr

/-- Python `str()` of a cell value, as applied by `astype(str)` in
`_validate_patient_data` / `_validate_diagnosis_data` / `_process_gender_column`:
`str(1) = "1"`, `str(1.0) = "1.0"`, strings unchanged, `str(nan) = "nan"`. -/
def pyStr (v : Value) : List Nat :=
  match v with
  | .intV n => intCodes n
  | .floatV n => intCodes n ++ codes ".0"
  | .strV s => s
  | .nullV => codes "nan"

-- ### Basic lemmas on the string model

theorem dropWhile_dropWhile (p : Nat → Bool) (l : List Nat) :
    (l.dropWhile p).dropWhile p = l.dropWhile p := by
  induction l with
  | nil => rfl
  | cons a t ih =>
    by_cases h : p a
    · simp [List.dropWhile_cons, h, ih]
    · simp [List.dropWhile_cons, h]

theorem dropWhile_head_not (p : Nat → Bool) (l : List Nat) :
    ∀ h, (l.dropWhile p).head? = some h → p h = false := by
  induction l with
  | nil => intro h hh; simp [List.dropWhile] at hh
  | cons a t ih =>
    intro h hh
    by_cases hp : p a
    · exact ih h (by simpa [List.dropWhile_cons, hp] using hh)
    · simp [List.dropWhile_cons, hp] at hh
      subst hh
      simpa using hp

theorem dropWhile_of_head_not (p : Nat → Bool) (l : List Nat)
    (h : ∀ x, l.head? = some x → p x = false) : l.dropWhile p = l := by
  cases l with
  | nil => rfl
  | cons a t =>
    have := h a rfl
    simp [List.dropWhile_cons, this]

theorem dropWhile_isSfx (p : Nat → Bool) (l : List Nat) :
    l.dropWhile p <:+ l := by
  induction l with
  | nil => exact List.suffix_rfl
  | cons a t ih =>
    by_cases h : p a
    · simpa [List.dropWhile_cons, h] using ih.trans (List.suffix_cons a t)
    · simp [List.dropWhile_cons, h]

theorem dropEnd_isPfx (p : Nat → Bool) (l : List Nat) : dropEnd p l <+: l := by
  rw [dropEnd, ← List.reverse_suffix, List.reverse_reverse]
  exact dropWhile_isSfx p l.reverse

theorem head?_of_isPfx {l₁ l₂ : List Nat} (h : l₁ <+: l₂) :
    ∀ x, l₁.head? = some x → l₂.head? = some x := by
  obtain ⟨t, rfl⟩ := h
  intro x hx
  cases l₁ with
  | nil => simp at hx
  | cons a s => simpa using hx

theorem dropEnd_head? (p : Nat → Bool) (l : List Nat) :
    ∀ x, (dropEnd p l).head? = some x → l.head? = some x :=
  head?_of_isPfx (dropEnd_isPfx p l)

theorem dropEnd_getLast_not (p : Nat → Bool) (l : List Nat) :
    ∀ x, (dropEnd p l).getLast? = some x → p x = false := by
  intro x hx
  rw [dropEnd, List.getLast?_reverse] at hx
  exact dropWhile_head_not p l.reverse x hx

theorem dropEnd_of_getLast_not (p : Nat → Bool) (l : List Nat)
    (h : ∀ x, l.getLast? = some x → p x = false) : dropEnd p l = l := by
  unfold dropEnd
  rw [dropWhile_of_head_not, List.reverse_reverse]
  intro x hx
  exact h x (by rwa [← List.head?_reverse])

/-- `strip` is idempotent. -/
theorem trimL_idem (l : List Nat) : trimL (trimL l) = trimL l := by
  unfold trimL
  have h1 : (dropEnd isWSb (l.dropWhile isWSb)).dropWhile isWSb
      = dropEnd isWSb (l.dropWhile isWSb) := by
    apply dropWhile_of_head_not
    intro x hx
    have hx' := dropEnd_head? isWSb (l.dropWhile isWSb) x hx
    exact dropWhile_head_not isWSb l x hx'
  rw [h1]
  apply dropEnd_of_getLast_not
  intro x hx
  exact dropEnd_getLast_not isWSb (l.dropWhile isWSb) x hx

theorem isWSb_upN (n : Nat) : isWSb (upN n) = isWSb n := by
  unfold upN
  by_cases h : 97 ≤ n ∧ n ≤ 122
  · have h1 : isWSb (n - 32) = false := by simp [isWSb]; omega
    have h2 : isWSb n = false := by simp [isWSb]; omega
    rw [if_pos h, h1, h2]
  · rw [if_neg h]

theorem upN_upN (n : Nat) : upN (upN n) = upN n := by
  unfold upN
  by_cases h : 97 ≤ n ∧ n ≤ 122
  · simp only [if_pos h]
    have h2 : ¬ (97 ≤ n - 32 ∧ n - 32 ≤ 122) := by omega
    simp only [if_neg h2]
  · simp only [if_neg h]

/-- `upper` is idempotent. -/
theorem upperL_idem (l : List Nat) : upperL (upperL l) = upperL l := by
  unfold upperL
  rw [List.map_map]
  apply List.map_congr_left
  intro a _
  exact upN_upN a

theorem dropWhile_upper (l : List Nat) :
    (upperL l).dropWhile isWSb = upperL (l.dropWhile isWSb) := by
  induction l with
  | nil => rfl
  | cons a t ih =>
    by_cases h : isWSb a
    · simp [upperL, List.dropWhile_cons, isWSb_upN, h] at ih ⊢
      exact ih
    · simp [upperL, List.dropWhile_cons, isWSb_upN, h]

theorem dropEnd_upper (l : List Nat) :
    dropEnd isWSb (upperL l) = upperL (dropEnd isWSb l) := by
  unfold dropEnd
  have : (upperL l).reverse = upperL l.reverse := by
    simp [upperL, List.map_reverse]
  rw [this, dropWhile_upper]
  simp [upperL, List.map_reverse]

/-- `strip` and `upper` commute. -/
theorem trimL_upperL (l : List Nat) : trimL (upperL l) = upperL (trimL l) := by
  unfold trimL
  rw [dropWhile_upper, dropEnd_upper]

-- ### Join engine (`_merge_data`) and identifier validation

/-- One table row after identifier validation: the stringified `REGISTRY ID`
join key plus the remaining (possibly missing) cells. -/
structure TRow where
  id : List Nat
  cells : List (Option Value)
deriving DecidableEq, Repr

/-- One row of the merged table: the join key, the diagnosis-side cells, and
the patient-side cells (null-filled when the key had no patient match). -/
structure MRow where
  id : List Nat
  dcells : List (Option Value)
  pcells : List (Option Value)
deriving DecidableEq, Repr

/-- pandas `diagnosis_data.merge(patient_data, on='REGISTRY ID', how='left')`:
every diagnosis row, in order, is paired with every patient row carrying the
same key (in patient order); a diagnosis row without any match is kept once
with `pw` null patient cells (`pw` = number of patient-side non-key columns). -/
def leftJoin (diag pat : List TRow) (pw : Nat) : List MRow :=
  diag.flatMap (fun d =>
    match pat.filter (fun p => p.id = d.id) with
    | [] => [⟨d.id, d.cells, List.replicate pw none⟩]
    | q :: qs => (q :: qs).map (fun p => ⟨d.id, d.cells, p.cells⟩))

/-- `_merge_data` up to its emptiness check: pandas `merged_data.empty` is the
zero-row test, and the code raises
`"No matching records found between patient and diagnosis data"` exactly when
the left join produced zero rows. -/
def mergeData (pat diag : List TRow) (pw : Nat) : Except (List Nat) (List MRow) :=
  if leftJoin diag pat pw = [] then
    .error (codes "No matching records found between patient and diagnosis data")
  else
    .ok (leftJoin diag pat pw)

/-- `suffixes=('_DIAG', '_PATIENT')`: a non-key column name is suffixed when the
same name also occurs among the other table's non-key columns. -/
def suffixName (other : List (List Nat)) (tag : List Nat) (n : List Nat) : List Nat :=
  if n ∈ other then n ++ tag else n

/-- Column names of the merged table: the join key followed by the
diagnosis-side then patient-side non-key columns, collisions suffixed. -/
def mergedCols (dcols pcols : List (List Nat)) : List (List Nat) :=
  codes "REGISTRY ID" ::
    (dcols.map (suffixName pcols (codes "_DIAG")) ++
     pcols.map (suffixName dcols (codes "_PATIENT")))

/-- The full cell list of one merged row (the key is a string cell). -/
def mrowCells (m : MRow) : List (Option Value) :=
  some (Value.strV m.id) :: (m.dcells ++ m.pcells)

/-- Row survives `dropna(subset=[cols ending in '_PATIENT'])`: every cell that
sits under a column name ending in `_PATIENT` is non-null. -/
def rowKeep (cols : List (List Nat)) (r : List (Option Value)) : Bool :=
  (List.zip cols r).all (fun cv => !(endsWithL (codes "_PATIENT") cv.1) || cv.2.isSome)

/-- The merge statistics of `_merge_data`:
`matched = len(merged.dropna(subset=[c for c in merged.columns if c.endswith('_PATIENT')]))`
reported against `total = len(diagnosis_data)`. -/
def mergeReport (pat diag : List TRow) (dcols pcols : List (List Nat)) : Nat × Nat :=
  let cols := mergedCols dcols pcols
  let rows := (leftJoin diag pat pcols.length).map mrowCells
  ((rows.filter (rowKeep cols)).length, diag.length)

-- ### Join lemmas

theorem filter_eq_find_toList (pat : List TRow) (x : List Nat)
    (hN : (pat.map TRow.id).Nodup) :
    pat.filter (fun p => p.id = x) = (pat.find? (fun p => p.id = x)).toList := by
  induction pat with
  | nil => rfl
  | cons a t ih =>
    rw [List.map_cons, List.nodup_cons] at hN
    by_cases h : a.id = x
    · have ht : t.filter (fun p => p.id = x) = [] := by
        rw [List.filter_eq_nil_iff]
        intro p hp hpx
        apply hN.1
        rw [List.mem_map]
        refine ⟨p, hp, ?_⟩
        have : p.id = x := by simpa using hpx
        rw [this, h]
      rw [List.filter_cons_of_pos (by simpa using h),
          List.find?_cons_of_pos _ (by simpa using h), ht]
      rfl
    · rw [List.filter_cons_of_neg (by simpa using h),
          List.find?_cons_of_neg _ (by simpa using h)]
      exact ih hN.2

/-- Under unique patient identifiers the left join is a per-diagnosis-row map:
each diagnosis row yields exactly one merged row, matched via `find?`. -/
theorem leftJoin_eq_map (diag pat : List TRow) (pw : Nat)
    (hN : (pat.map TRow.id).Nodup) :
    leftJoin diag pat pw = diag.map (fun d =>
      match pat.find? (fun p => p.id = d.id) with
      | some p => ⟨d.id, d.cells, p.cells⟩
      | none => ⟨d.id, d.cells, List.replicate pw none⟩) := by
  unfold leftJoin
  induction diag with
  | nil => rfl
  | cons d t ih =>
    rw [List.flatMap_cons, List.map_cons, ih]
    rw [filter_eq_find_toList pat d.id hN]
    cases pat.find? (fun p => p.id = d.id) with
    | none => rfl
    | some p => rfl

theorem leftJoin_length (diag pat : List TRow) (pw : Nat)
    (hN : (pat.map TRow.id).Nodup) :
    (leftJoin diag pat pw).length = diag.length := by
  rw [leftJoin_eq_map diag pat pw hN, List.length_map]

theorem leftJoin_unmatched_null (diag pat : List TRow) (pw : Nat) :
    ∀ m ∈ leftJoin diag pat pw, m.id ∉ pat.map TRow.id →
      m.pcells = List.replicate pw none := by
  intro m hm hid
  unfold leftJoin at hm
  rw [List.mem_flatMap] at hm
  obtain ⟨d, _, hmem⟩ := hm
  cases hfil : pat.filter (fun p => p.id = d.id) with
  | nil =>
    rw [hfil] at hmem
    simp at hmem
    rw [hmem]
  | cons q qs =>
    rw [hfil] at hmem
    rw [List.mem_map] at hmem
    obtain ⟨p, hp, rfl⟩ := hmem
    exfalso
    apply hid
    have hpmem : p ∈ pat.filter (fun p' => p'.id = d.id) := by rw [hfil]; exact hp
    rw [List.mem_filter] at hpmem
    have hpid : p.id = d.id := by simpa using hpmem.2
    simp only [List.mem_map]
    exact ⟨p, hpmem.1, hpid⟩

theorem leftJoin_nonempty (diag pat : List TRow) (pw : Nat) :
    leftJoin diag pat pw = [] ↔ diag = [] := by
  constructor
  · intro h
    cases diag with
    | nil => rfl
    | cons d t =>
      exfalso
      unfold leftJoin at h
      rw [List.flatMap_cons, List.append_eq_nil] at h
      have h1 := h.1
      cases hfil : pat.filter (fun p => p.id = d.id) with
      | nil => rw [hfil] at h1; simp at h1
      | cons q qs => rw [hfil] at h1; simp at h1
  · intro h
    rw [h]
    rfl

-- ### Field normalizer: age (`_process_age_column`)

/-- Accumulate the value of a decimal digit string. -/
def digitsVal (l : List Nat) : Nat := l.foldl (fun a d => a * 10 + (d - 48)) 0

/-- All code points are decimal digits. -/
def allDigits (l : List Nat) : Bool := l.all (fun d => 48 ≤ d && d ≤ 57)

/-- Numeric literal without sign: digits with at most one decimal point,
at least one digit overall (`"34"`, `"34."`, `".5"`, `"34.5"`). -/
def parseUnsigned (l : List Nat) : Option ℚ :=
  match l.span (fun d => d != 46) with
  | (ip, []) =>
    if !ip.isEmpty && allDigits ip then some (digitsVal ip) else none
  | (ip, _ :: fp) =>
    if (!ip.isEmpty || !fp.isEmpty) && allDigits ip && allDigits fp then
      some ((digitsVal ip : ℚ) + (digitsVal fp : ℚ) / (10 : ℚ) ^ fp.length)
    else none

/-- Numeric parsing of a string cell, as `pd.to_numeric(errors='coerce')`
accepts it: optional surrounding whitespace, optional sign, decimal digits
with at most one point.  (Exponent and infinity spellings, which the pipeline's
claims never exercise, are not modelled and come out as `none`.) -/
def parseNumeric (l : List Nat) : Option ℚ :=
  match trimL l with
  | 43 :: rest => parseUnsigned rest
  | 45 :: rest => (parseUnsigned rest).map (fun q => -q)
  | t => parseUnsigned t

/-- `pd.to_numeric(x, errors='coerce')` on one cell: numbers pass through,
numeric strings parse, everything else (including null) becomes null. -/
def toNumeric (v : Value) : Option ℚ :=
  match v with
  | .intV n => some (n : ℚ)
  | .floatV n => some (n : ℚ)
  | .strV s => parseNumeric s
  | .nullV => none

/-- The per-cell age normalization of `_process_age_column`:
`pd.to_numeric(errors='coerce')` followed by
`df.loc[(df[age_col] < 0) | (df[age_col] > 150), age_col] = np.nan`. -/
def normalizeAgeCell (v : Value) : Option ℚ :=
  match toNumeric v with
  | none => none
  | some q => if q < 0 ∨ 150 < q then none else some q

/-- Second-tier age-column test: `col.upper() == 'AGE' or col.upper().endswith(' AGE')`. -/
def agePred2 (c : List Nat) : Bool :=
  upperL c = codes "AGE" || endsWithL (codes " AGE") (upperL c)

/-- Fallback age-column test: `'AGE' in col.upper() and 'TRIAGE' not in col.upper()`. -/
def agePred3 (c : List Nat) : Bool :=
  containsL (codes "AGE") (upperL c) && !containsL (codes "TRIAGE") (upperL c)

/-- `_process_age_column`'s column choice: an exact `AGE` column first; else the
first of the `== 'AGE' or endswith(' AGE')` candidates; else the first of the
`'AGE' in col and 'TRIAGE' not in col` fallback candidates (the code builds
each candidate list with a filter and takes element `[0]`). -/
def selectAgeColumn (cols : List (List Nat)) : Option (List Nat) :=
  if codes "AGE" ∈ cols then some (codes "AGE")
  else
    match (cols.filter agePred2).head? with
    | some c => some c
    | none => (cols.filter agePred3).head?

/-- The same precedence in the spec's wording: the first column in column order
matching each tier, tiers tried in order. -/
def specAgeSelect (cols : List (List Nat)) : Option (List Nat) :=
  if codes "AGE" ∈ cols then some (codes "AGE")
  else
    match cols.find? agePred2 with
    | some c => some c
    | none => cols.find? agePred3

/-- The rename step of `_process_age_column`: the selected column is renamed to
the canonical `AGE` (a no-op when it is already so named). -/
def renameAgeCols (cols : List (List Nat)) : List (List Nat) :=
  match selectAgeColumn cols with
  | none => cols
  | some c =>
    if c = codes "AGE" then cols
    else cols.map (fun x => if x = c then codes "AGE" else x)

theorem filter_head?_eq_find? (p : List Nat → Bool) (l : List (List Nat)) :
    (l.filter p).head? = l.find? p := by
  induction l with
  | nil => rfl
  | cons a t ih =>
    by_cases h : p a
    · rw [List.filter_cons_of_pos h, List.find?_cons_of_pos _ h]
      rfl
    · rw [List.filter_cons_of_neg (by simpa using h), List.find?_cons_of_neg _ (by simpa using h)]
      exact ih

-- ### Field normalizer: gender (`_process_gender_column`)

/-- The fixed canonical mapping of `_process_gender_column` (keys and values
are the Python dict's, as strings). -/
def genderMapping : List (List Nat × List Nat) := [
  (codes "1", codes "MALE"), (codes "1.0", codes "MALE"),
  (codes "2", codes "FEMALE"), (codes "2.0", codes "FEMALE"),
  (codes "3", codes "TRANSGENDER"), (codes "3.0", codes "TRANSGENDER"),
  (codes "M", codes "MALE"), (codes "MALE", codes "MALE"), (codes "MAN", codes "MALE"),
  (codes "F", codes "FEMALE"), (codes "FEMALE", codes "FEMALE"), (codes "WOMAN", codes "FEMALE"),
  (codes "T", codes "TRANSGENDER"), (codes "TRANSGENDER", codes "TRANSGENDER"),
  (codes "TRANS", codes "TRANSGENDER"),
  (codes "O", codes "OTHER"), (codes "OTHER", codes "OTHER"), (codes "OTHERS", codes "OTHER")]

/-- Python dict lookup (`Series.map` through the dict). -/
def lookupG : List (List Nat × List Nat) → List Nat → Option (List Nat)
  | [], _ => none
  | (a, b) :: t, k => if k = a then some b else lookupG t k

/-- The lookup key: `astype(str).str.strip()` (line 158) then `.str.upper()`
(line 172). -/
def genderKey (v : Value) : List Nat := upperL (trimL (pyStr v))

/-- `_process_gender_column`'s per-cell transformation:
`df[col].str.upper().map(gender_mapping).fillna(df[col].str.upper())` applied
to the stripped, stringified column.  Total and deterministic by construction:
it is a Lean function, and unmapped values fall through to the uppercased key. -/
def normalizeGender (v : Value) : List Nat :=
  (lookupG genderMapping (genderKey v)).getD (genderKey v)

theorem genderKey_str_genderKey (v : Value) :
    genderKey (Value.strV (genderKey v)) = genderKey v := by
  unfold genderKey
  simp only [pyStr]
  rw [trimL_upperL, trimL_idem, upperL_idem]

theorem lookupG_mem {m : List (List Nat × List Nat)} {k v : List Nat}
    (h : lookupG m k = some v) : (k, v) ∈ m := by
  induction m with
  | nil => simp [lookupG] at h
  | cons a t ih =>
    obtain ⟨a1, a2⟩ := a
    rw [show lookupG ((a1, a2) :: t) k = if k = a1 then some a2 else lookupG t k from rfl] at h
    by_cases hk : k = a1
    · rw [if_pos hk] at h
      have hv : a2 = v := by injection h
      rw [List.mem_cons]
      left
      rw [hk, hv]
    · rw [if_neg hk] at h
      exact List.mem_cons_of_mem _ (ih h)

theorem normalizeGender_canonical :
    ∀ p ∈ genderMapping, normalizeGender (Value.strV p.2) = p.2 := by decide

/-- Normalization is idempotent on every value, not only mapped ones. -/
theorem normalizeGender_idem (v : Value) :
    normalizeGender (Value.strV (normalizeGender v)) = normalizeGender v := by
  unfold normalizeGender
  cases h : lookupG genderMapping (genderKey v) with
  | none =>
    rw [Option.getD_none, genderKey_str_genderKey, h, Option.getD_none]
  | some w =>
    rw [Option.getD_some]
    have hmem := lookupG_mem h
    have := normalizeGender_canonical (genderKey v, w) hmem
    unfold normalizeGender at this
    exact this

-- ### Sheet resolver (`_find_sheet`, `process_excel_file`)

/-- The role keyword lists of `process_excel_file`. -/
def patientKeywords : List (List Nat) :=
  [codes "patient", codes "patients", codes "patient_details"]

def diagnosisKeywords : List (List Nat) :=
  [codes "diagnosis", codes "diagnoses", codes "diagnosis_details", codes "diag"]

/-- `_find_sheet`: walk the sheets in workbook order; for each sheet walk the
keywords and return the sheet on the first `keyword.lower() in sheet.lower()`
hit (the inner keyword loop is existence of a hit, i.e. `any`). -/
def findSheet : List (List Nat) → List (List Nat) → Option (List Nat)
  | [], _ => none
  | s :: rest, kws =>
    if kws.any (fun k => containsL (lowerL k) (lowerL s)) then some s
    else findSheet rest kws

/-- The sheet-resolution prefix of `process_excel_file`: find both sheets,
then fail on the missing patient sheet first, then the missing diagnosis
sheet. -/
def resolveSheets (sheets : List (List Nat)) :
    Except (List Nat) (List Nat × List Nat) :=
  match findSheet sheets patientKeywords with
  | none => .error (codes "Could not find patient data sheet")
  | some p =>
    match findSheet sheets diagnosisKeywords with
    | none => .error (codes "Could not find diagnosis data sheet")
    | some d => .ok (p, d)

theorem findSheet_eq_find? (sheets kws : List (List Nat)) :
    findSheet sheets kws
      = sheets.find? (fun s => kws.any (fun k => containsL (lowerL k) (lowerL s))) := by
  induction sheets with
  | nil => rfl
  | cons s rest ih =>
    cases h : kws.any (fun k => containsL (lowerL k) (lowerL s)) with
    | true => simp [findSheet, List.find?_cons, h]
    | false => simp [findSheet, List.find?_cons, h, ih]

theorem any_of_perm {α : Type} (p : α → Bool) {l1 l2 : List α} (h : l1.Perm l2) :
    l1.any p = l2.any p := by
  have hiff : (l1.any p = true) ↔ (l2.any p = true) := by
    rw [List.any_eq_true, List.any_eq_true]
    constructor
    · rintro ⟨x, hx, hp⟩
      exact ⟨x, h.mem_iff.mp hx, hp⟩
    · rintro ⟨x, hx, hp⟩
      exact ⟨x, h.mem_iff.mpr hx, hp⟩
  cases h1 : l1.any p
  · cases h2 : l2.any p
    · rfl
    · exact absurd (hiff.mpr h2) (by rw [h1]; simp)
  · rw [hiff.mp h1]

-- ### Validation & summary (`validate_data` in `src/utils.py`)

/-- A table as `validate_data` receives it: named columns, rows of cells. -/
structure Table where
  cols : List (List Nat)
  rows : List (List Value)
deriving DecidableEq, Repr

/-- pandas `df.empty`: one of the axes has length zero. -/
def Table.isEmptyT (t : Table) : Bool := t.rows.isEmpty || t.cols.isEmpty

/-- Model of a pandas column dtype: all-integer columns are integer, columns
of numbers and nulls are float, anything else is object. -/
inductive ColType where
  | intT
  | floatT
  | objT
deriving DecidableEq, Repr

def colValues (t : Table) (i : Nat) : List Value :=
  t.rows.map (fun r => r.getD i Value.nullV)

def classifyCol (vs : List Value) : ColType :=
  if vs.all (fun v => match v with | .intV _ => true | _ => false) then .intT
  else if vs.all (fun v =>
      match v with
      | .intV _ => true
      | .floatV _ => true
      | .nullV => true
      | _ => false) then .floatT
  else .objT

/-- `df.isnull().sum().sum()`. -/
def countNulls (t : Table) : Nat :=
  (t.rows.map (fun r => r.countP (fun v => v = Value.nullV))).sum

/-- `Series.duplicated().sum()` / `df.duplicated().sum()`: occurrences beyond
the first of each value. -/
def dupAux {α : Type} [DecidableEq α] (seen : List α) : List α → Nat
  | [] => 0
  | x :: xs => (if x ∈ seen then 1 else 0) + dupAux (x :: seen) xs

def dupCount {α : Type} [DecidableEq α] (l : List α) : Nat := dupAux [] l

/-- Values of the `REGISTRY ID` column. -/
def idColVals (t : Table) : List Value :=
  colValues t (t.cols.indexOf (codes "REGISTRY ID"))

/-- The `info` dictionary filled by `validate_data`. -/
structure InfoRec where
  total_rows : Nat
  total_columns : Nat
  missing_values : Nat
  duplicate_rows : Nat
  column_types : List (List Nat × ColType)
deriving DecidableEq, Repr

structure ValidationResult where
  is_valid : Bool
  errors : List (List Nat)
  warnings : List (List Nat)
  info : Option InfoRec
deriving DecidableEq, Repr

def mkInfo (t : Table) : InfoRec :=
  ⟨t.rows.length, t.cols.length, countNulls t, dupCount t.rows,
   (List.range t.cols.length).map (fun i => (t.cols.getD i [], classifyCol (colValues t i)))⟩

/-- `validate_data` from `src/utils.py`: early return with only the emptiness
error on an empty frame; otherwise an error for a missing `REGISTRY ID`
column, a warning (never an error) for duplicated identifiers, and the `info`
metrics. -/
def validate_data (t : Table) : ValidationResult :=
  if t.isEmptyT then
    ⟨false, [codes "DataFrame is empty"], [], none⟩
  else if codes "REGISTRY ID" ∈ t.cols then
    ⟨true, [],
     if 0 < dupCount (idColVals t) then
       [codes "Found duplicate Registry IDs (this is normal for diagnosis data)"]
     else [],
     some (mkInfo t)⟩
  else
    ⟨false, [codes "Missing required columns: ['REGISTRY ID']"], [], some (mkInfo t)⟩

-- ### Identifier validation (`_validate_patient_data` / `_validate_diagnosis_data`)

/-- The identifier steps shared by `_validate_patient_data` and
`_validate_diagnosis_data`: error when the `REGISTRY ID` column is absent,
else `dropna(subset=['REGISTRY ID'])` then `astype(str)` on the key. -/
def validateIds (errMsg : List Nat) (cols : List (List Nat))
    (rows : List (Value × List (Option Value))) :
    Except (List Nat) (List TRow) :=
  if codes "REGISTRY ID" ∈ cols then
    .ok ((rows.filter (fun r => r.1 ≠ Value.nullV)).map (fun r => ⟨pyStr r.1, r.2⟩))
  else
    .error errMsg

-- ### Summary report (`generate_summary_report` in `src/app.py`)

/-- A merged-table row as the summary report reads it: identifier, gender
cell, age cell. -/
structure SRow where
  rid : List Nat
  gender : Option (List Nat)
  age : Option ℚ
deriving DecidableEq, Repr

/-- Distinct elements in first-occurrence order (the groupby keys; the report's
aggregates are insensitive to key order). -/
def dedupF {α : Type} [DecidableEq α] : List α → List α
  | [] => []
  | x :: xs => x :: (dedupF xs).filter (fun y => y ≠ x)

/-- pandas `groupby('REGISTRY ID')[col].first()`: the first NON-NULL value of
the group (`skipna=True` is the default). -/
def groupFirstAge (rows : List SRow) (i : List Nat) : Option ℚ :=
  (rows.filter (fun r => r.rid = i)).findSome? SRow.age

def groupFirstGender (rows : List SRow) (i : List Nat) : Option (List Nat) :=
  (rows.filter (fun r => r.rid = i)).findSome? SRow.gender

/-- `merged.groupby('REGISTRY ID')['AGE'].first()` with nulls dropped, as
`.mean()`, `.min()`, `.max()` consume it (`skipna`). -/
def ageSeries (rows : List SRow) : List ℚ :=
  (dedupF (rows.map SRow.rid)).filterMap (groupFirstAge rows)

def meanQ (l : List ℚ) : Option ℚ :=
  if l.isEmpty then none else some (l.sum / l.length)

def minQ (l : List ℚ) : Option ℚ :=
  match l with
  | [] => none
  | a :: t => some (t.foldl min a)

def maxQ (l : List ℚ) : Option ℚ :=
  match l with
  | [] => none
  | a :: t => some (t.foldl max a)

def reportAgeMean (rows : List SRow) : Option ℚ := meanQ (ageSeries rows)

def reportAgeMin (rows : List SRow) : Option ℚ := minQ (ageSeries rows)

def reportAgeMax (rows : List SRow) : Option ℚ := maxQ (ageSeries rows)

/-- `value_counts()` of the per-identifier first genders (nulls excluded). -/
def genderSeries (rows : List SRow) : List (List Nat) :=
  (dedupF (rows.map SRow.rid)).filterMap (groupFirstGender rows)

def genderCount (rows : List SRow) (g : List Nat) : Nat :=
  (genderSeries rows).count g

/-- The printed percentage `count/len(patient_data)*100`. -/
def reportGenderPct (rows : List SRow) (patientRowCount : Nat) (g : List Nat) : ℚ :=
  (genderCount rows g : ℚ) / (patientRowCount : ℚ) * 100

/-- Modelled from the spec: one age value per distinct identifier taking the
FIRST OCCURRENCE per identifier (a null first occurrence contributes no
value), as the claim words the aggregation. -/
def specFirstOccAges (rows : List SRow) : List ℚ :=
  (dedupF (rows.map SRow.rid)).filterMap
    (fun i => ((rows.filter (fun r => r.rid = i)).map SRow.age).head?.join)

def specAgeMeanFirstOcc (rows : List SRow) : Option ℚ := meanQ (specFirstOccAges rows)

theorem findSome?_eq_head?_filterMap {α β : Type} (f : α → Option β) (l : List α) :
    l.findSome? f = (l.filterMap f).head? := by
  induction l with
  | nil => rfl
  | cons a t ih =>
    rw [show (a :: t).findSome? f
          = (match f a with | some b => some b | none => t.findSome? f) from rfl]
    cases h : f a with
    | none =>
      rw [List.filterMap_cons_none h]
      exact ih
    | some b =>
      rw [List.filterMap_cons_some h]
      rfl

theorem dedupF_of_nodup {α : Type} [DecidableEq α] (l : List α) (h : l.Nodup) :
    dedupF l = l := by
  induction l with
  | nil => rfl
  | cons a t ih =>
    rw [List.nodup_cons] at h
    rw [show dedupF (a :: t) = a :: (dedupF t).filter (fun y => y ≠ a) from rfl]
    rw [ih h.2]
    congr 1
    rw [List.filter_eq_self]
    intro b hb
    simp only [ne_eq, decide_eq_true_eq]
    intro hba
    exact h.1 (hba ▸ hb)

-- ### Claim C4 — age value normalization

/-- **C4.** For every age cell value: a non-numeric value normalizes to null;
a numeric value outside [0, 150] normalizes to null; a numeric value inside
[0, 150] is preserved exactly by normalization. -/
theorem c4_age_value_normalization (v : Value) :
    (toNumeric v = none → normalizeAgeCell v = none) ∧
    (∀ q : ℚ, toNumeric v = some q →
      ((q < 0 ∨ 150 < q) → normalizeAgeCell v = none) ∧
      (0 ≤ q → q ≤ 150 → normalizeAgeCell v = some q)) := by
  constructor
  · intro h
    unfold normalizeAgeCell
    rw [h]
  · intro q hq
    constructor
    · intro hout
      unfold normalizeAgeCell
      rw [hq]
      exact if_pos hout
    · intro h0 h150
      unfold normalizeAgeCell
      rw [hq]
      apply if_neg
      push_neg
      exact ⟨h0, h150⟩

theorem c4_age_value_normalization_witness :
    normalizeAgeCell (Value.strV (codes "abc")) = none ∧
    normalizeAgeCell (Value.intV 200) = none ∧
    normalizeAgeCell (Value.intV 34) = some 34 :=
  ⟨(c4_age_value_normalization (Value.strV (codes "abc"))).1 (by decide),
   ((c4_age_value_normalization (Value.intV 200)).2 200 (by decide)).1
     (Or.inr (by norm_num)),
   ((c4_age_value_normalization (Value.intV 34)).2 34 (by decide)).2
     (by norm_num) (by norm_num)⟩

-- ### Claim C5 — gender normalization

/-- **C5.** Gender normalization is total and deterministic (it is a Lean
function on every `Value`); every key of the canonical mapping normalizes to
its canonical value (in particular "3.0" to TRANSGENDER); values outside the
mapping's domain pass through changed only by stripping and uppercasing
("Prefer not to say" to "PREFER NOT TO SAY"); and normalization is idempotent
on every value, in particular on already-normalized ones. -/
theorem c5_gender_normalization :
    (∀ v : Value, normalizeGender (Value.strV (normalizeGender v)) = normalizeGender v) ∧
    (∀ p ∈ genderMapping, normalizeGender (Value.strV p.1) = p.2) ∧
    (∀ v : Value, lookupG genderMapping (genderKey v) = none →
      normalizeGender v = genderKey v) ∧
    normalizeGender (Value.strV (codes "3.0")) = codes "TRANSGENDER" ∧
    normalizeGender (Value.floatV 3) = codes "TRANSGENDER" ∧
    normalizeGender (Value.strV (codes "Prefer not to say")) = codes "PREFER NOT TO SAY" := by
  refine ⟨normalizeGender_idem, by decide, ?_, by decide, by decide, by decide⟩
  intro v h
  unfold normalizeGender
  rw [h, Option.getD_none]

theorem c5_gender_normalization_witness :
    normalizeGender (Value.strV (codes "M")) = codes "MALE" ∧
    normalizeGender (Value.strV (codes "XYZ")) = codes "XYZ" :=
  ⟨c5_gender_normalization.2.1 (codes "M", codes "MALE") (by decide),
   (c5_gender_normalization.2.2.1 (Value.strV (codes "XYZ")) (by decide)).trans
     (show genderKey (Value.strV (codes "XYZ")) = codes "XYZ" by decide)⟩

-- ### Claim C6 — age column selection

theorem selectAgeColumn_mem {cols : List (List Nat)} {c : List Nat}
    (h : selectAgeColumn cols = some c) :
    (codes "AGE" ∈ cols ∧ c = codes "AGE") ∨ c ∈ cols := by
  unfold selectAgeColumn at h
  by_cases hAGE : codes "AGE" ∈ cols
  · rw [if_pos hAGE] at h
    exact Or.inl ⟨hAGE, (Option.some.inj h).symm⟩
  · rw [if_neg hAGE] at h
    rw [filter_head?_eq_find? agePred2, filter_head?_eq_find? agePred3] at h
    cases h2 : cols.find? agePred2 with
    | some d =>
      rw [h2] at h
      have hd : d = c := Option.some.inj h
      right
      exact hd ▸ List.mem_of_find?_eq_some h2
    | none =>
      rw [h2] at h
      right
      exact List.mem_of_find?_eq_some (show cols.find? agePred3 = some c from h)

theorem selectAgeColumn_pred {cols : List (List Nat)} {c : List Nat}
    (h : selectAgeColumn cols = some c) :
    c = codes "AGE" ∨ agePred2 c = true ∨ agePred3 c = true := by
  unfold selectAgeColumn at h
  by_cases hAGE : codes "AGE" ∈ cols
  · rw [if_pos hAGE] at h
    exact Or.inl (Option.some.inj h).symm
  · rw [if_neg hAGE] at h
    rw [filter_head?_eq_find? agePred2, filter_head?_eq_find? agePred3] at h
    cases h2 : cols.find? agePred2 with
    | some d =>
      rw [h2] at h
      have hd : d = c := Option.some.inj h
      exact Or.inr (Or.inl (hd ▸ List.find?_some h2))
    | none =>
      rw [h2] at h
      exact Or.inr (Or.inr (List.find?_some (show cols.find? agePred3 = some c from h)))

/-- **C6.** Age-column precedence: the code's selection equals the spec's
first-match-per-tier selection (exact "AGE", else first name equal to "AGE" or
ending in " AGE", else first name containing "AGE" but not "TRIAGE"); a column
named "TRIAGE LEVEL" is never selected; at most one column is selected
(selection is an `Option`), and after the rename step the canonical name
"AGE" is present. -/
theorem c6_age_column_precedence :
    (∀ cols, selectAgeColumn cols = specAgeSelect cols) ∧
    (∀ cols, selectAgeColumn cols ≠ some (codes "TRIAGE LEVEL")) ∧
    (∀ cols c, selectAgeColumn cols = some c → codes "AGE" ∈ renameAgeCols cols) := by
  refine ⟨?_, ?_, ?_⟩
  · intro cols
    unfold selectAgeColumn specAgeSelect
    rw [filter_head?_eq_find? agePred2, filter_head?_eq_find? agePred3]
  · intro cols h
    rcases selectAgeColumn_pred h with h1 | h2 | h3
    · exact absurd h1 (by decide)
    · exact absurd h2 (by decide)
    · exact absurd h3 (by decide)
  · intro cols c h
    unfold renameAgeCols
    rw [h]
    show codes "AGE" ∈
      (if c = codes "AGE" then cols
       else List.map (fun x => if x = c then codes "AGE" else x) cols)
    by_cases hc : c = codes "AGE"
    · rw [if_pos hc]
      rcases selectAgeColumn_mem h with ⟨hin, _⟩ | hin
      · exact hin
      · exact hc ▸ hin
    · rw [if_neg hc]
      rcases selectAgeColumn_mem h with ⟨_, hceq⟩ | hin
      · exact absurd hceq hc
      · rw [List.mem_map]
        exact ⟨c, hin, by rw [if_pos rfl]⟩

theorem c6_age_column_precedence_witness :
    selectAgeColumn [codes "TRIAGE LEVEL", codes "PATIENT AGE"]
      = specAgeSelect [codes "TRIAGE LEVEL", codes "PATIENT AGE"] ∧
    codes "AGE" ∈ renameAgeCols [codes "TRIAGE LEVEL", codes "PATIENT AGE"] :=
  ⟨c6_age_column_precedence.1 _,
   c6_age_column_precedence.2.2 _ (codes "PATIENT AGE") (by decide)⟩

-- ### Claim C7 — sheet resolution

/-- **C7.** Sheet resolution returns the first sheet in workbook order whose
lowercased name contains any keyword; it is invariant under reordering of the
keyword list (so combined with being a function of its inputs it is
deterministic); and when a role has no matching sheet the pipeline fails with
that role's sheet-not-found error. -/
theorem c7_sheet_resolution :
    (∀ sheets kws, findSheet sheets kws
        = sheets.find? (fun s => kws.any (fun k => containsL (lowerL k) (lowerL s)))) ∧
    (∀ sheets kws kws', kws.Perm kws' → findSheet sheets kws = findSheet sheets kws') ∧
    (∀ sheets, findSheet sheets patientKeywords = none →
      resolveSheets sheets = .error (codes "Could not find patient data sheet")) ∧
    (∀ sheets p, findSheet sheets patientKeywords = some p →
      findSheet sheets diagnosisKeywords = none →
      resolveSheets sheets = .error (codes "Could not find diagnosis data sheet")) := by
  refine ⟨findSheet_eq_find?, ?_, ?_, ?_⟩
  · intro sheets kws kws' hperm
    rw [findSheet_eq_find?, findSheet_eq_find?]
    have hp : (fun s => kws.any (fun k => containsL (lowerL k) (lowerL s)))
        = (fun s => kws'.any (fun k => containsL (lowerL k) (lowerL s))) := by
      funext s
      exact any_of_perm _ hperm
    rw [hp]
  · intro sheets h
    unfold resolveSheets
    rw [h]
  · intro sheets p h1 h2
    unfold resolveSheets
    rw [h1, h2]

theorem c7_sheet_resolution_witness :
    findSheet [codes "Summary"] [codes "b", codes "a"]
      = findSheet [codes "Summary"] [codes "a", codes "b"] ∧
    resolveSheets [codes "Summary"] = .error (codes "Could not find patient data sheet") :=
  ⟨c7_sheet_resolution.2.1 _ _ _ (List.Perm.swap (codes "a") (codes "b") []),
   c7_sheet_resolution.2.2.1 _ (by decide)⟩

-- ### Claims C1–C3 — the join engine

/-- The single merged row one diagnosis row produces when patient identifiers
are unique. -/
def matchRow (pat : List TRow) (pw : Nat) (d : TRow) : MRow :=
  match pat.find? (fun p => p.id = d.id) with
  | some p => ⟨d.id, d.cells, p.cells⟩
  | none => ⟨d.id, d.cells, List.replicate pw none⟩

theorem leftJoin_eq_map_matchRow (diag pat : List TRow) (pw : Nat)
    (hN : (pat.map TRow.id).Nodup) :
    leftJoin diag pat pw = diag.map (matchRow pat pw) :=
  leftJoin_eq_map diag pat pw hN

/-- **C1.** With the patient table satisfying its invariant (unique
identifiers) and identifiers overlapping, the left join has exactly one row
per diagnosis row — no diagnosis row dropped or duplicated — and every merged
row whose identifier has no patient match carries all-null patient-side
cells. -/
theorem c1_join_row_preservation (pat diag : List TRow) (pw : Nat)
    (hN : (pat.map TRow.id).Nodup)
    (_hov : ∃ d ∈ diag, d.id ∈ pat.map TRow.id) :
    (leftJoin diag pat pw).length = diag.length ∧
    ∀ m ∈ leftJoin diag pat pw, m.id ∉ pat.map TRow.id →
      m.pcells = List.replicate pw none :=
  ⟨leftJoin_length diag pat pw hN, leftJoin_unmatched_null diag pat pw⟩

def exPatC1 : List TRow := [⟨codes "A1", [some (Value.intV 34)]⟩]

def exDiagC1 : List TRow :=
  [⟨codes "A1", [some (Value.strV (codes "FLU"))]⟩,
   ⟨codes "B2", [some (Value.strV (codes "COLD"))]⟩]

theorem c1_join_row_preservation_witness :
    (leftJoin exDiagC1 exPatC1 1).length = exDiagC1.length ∧
    (⟨codes "B2", [some (Value.strV (codes "COLD"))], [none]⟩ : MRow).pcells
      = List.replicate 1 none :=
  ⟨(c1_join_row_preservation exPatC1 exDiagC1 1 (by decide)
      ⟨⟨codes "A1", [some (Value.strV (codes "FLU"))]⟩, by decide, by decide⟩).1,
   (c1_join_row_preservation exPatC1 exDiagC1 1 (by decide)
      ⟨⟨codes "A1", [some (Value.strV (codes "FLU"))]⟩, by decide, by decide⟩).2
     ⟨codes "B2", [some (Value.strV (codes "COLD"))], [none]⟩ (by decide) (by decide)⟩

/-- **C2 counterexample.** A nonempty diagnosis table with no identifier
overlap at all: the merge succeeds (the left join keeps the row null-filled),
so the empty-join error is NOT raised although no identifier overlaps. -/
theorem c2_empty_join_counterexample :
    (∀ d ∈ [(⟨codes "B2", []⟩ : TRow)],
      d.id ∉ ([(⟨codes "A1", []⟩ : TRow)].map TRow.id)) ∧
    mergeData [⟨codes "A1", []⟩] [⟨codes "B2", []⟩] 0
      = .ok [⟨codes "B2", [], []⟩] := by
  constructor
  · decide
  · rfl

/-- **C2 (amended).** The empty-join error is raised iff the validated
diagnosis table is empty: a nonempty diagnosis table merges successfully
regardless of identifier overlap (unmatched rows are null-filled), and only
an empty diagnosis table produces the zero-row result that raises the
error. -/
theorem c2_empty_join_error_iff (pat diag : List TRow) (pw : Nat) :
    (mergeData pat diag pw
        = .error (codes "No matching records found between patient and diagnosis data"))
      ↔ diag = [] := by
  unfold mergeData
  by_cases hj : leftJoin diag pat pw = []
  · rw [if_pos hj]
    constructor
    · intro _
      exact (leftJoin_nonempty diag pat pw).mp hj
    · intro _
      rfl
  · rw [if_neg hj]
    constructor
    · intro h
      exact Except.noConfusion h
    · intro h
      exact absurd ((leftJoin_nonempty diag pat pw).mpr h) hj

def exPatC3 : List TRow := [⟨codes "1", [some (Value.intV 30), none]⟩]

def exDiagC3 : List TRow := [⟨codes "1", [none, none]⟩]

def exDColsC3 : List (List Nat) := [codes "AGE", codes "SEX"]

def exPColsC3 : List (List Nat) := [codes "AGE", codes "SEX"]

/-- Modelled from the spec: a result row counts as matched when AT LEAST ONE
patient-side (suffixed) column is non-null. -/
def claimRowKeep (cols : List (List Nat)) (r : List (Option Value)) : Bool :=
  (List.zip cols r).any (fun cv => endsWithL (codes "_PATIENT") cv.1 && cv.2.isSome)

def claimMatchedCount (pat diag : List TRow) (dcols pcols : List (List Nat)) : Nat :=
  (((leftJoin diag pat pcols.length).map mrowCells).filter
    (claimRowKeep (mergedCols dcols pcols))).length

/-- **C3 counterexample.** A matched merged row with one non-null and one null
patient-side column: the code's `dropna(subset=...)`-based count treats it as
unmatched (it requires every patient-side column non-null), while the claim's
at-least-one-non-null criterion counts it as matched. -/
theorem c3_match_report_counterexample :
    mergeReport exPatC3 exDiagC3 exDColsC3 exPColsC3 = (0, 1) ∧
    claimMatchedCount exPatC3 exDiagC3 exDColsC3 exPColsC3 = 1 := by
  constructor
  · rfl
  · rfl

/-- **C3 (amended).** The match report counts as matched exactly those result
rows in which EVERY column whose name ends in `_PATIENT` is non-null — under
unique patient identifiers, exactly the diagnosis rows whose unique merged
row passes that test — reported against the number of diagnosis rows, which
equals the number of result rows. -/
theorem c3_match_report (pat diag : List TRow) (dcols pcols : List (List Nat))
    (hN : (pat.map TRow.id).Nodup) :
    mergeReport pat diag dcols pcols
      = (diag.countP
          (fun d => rowKeep (mergedCols dcols pcols)
            (mrowCells (matchRow pat pcols.length d))),
         diag.length) ∧
    (leftJoin diag pat pcols.length).length = diag.length := by
  constructor
  · unfold mergeReport
    rw [Prod.mk.injEq]
    refine ⟨?_, rfl⟩
    rw [leftJoin_eq_map_matchRow diag pat pcols.length hN, List.map_map]
    rw [← List.countP_eq_length_filter]
    rw [List.countP_map]
    rfl
  · exact leftJoin_length diag pat pcols.length hN

theorem c3_match_report_witness :
    mergeReport exPatC3 exDiagC3 exDColsC3 exPColsC3
      = (exDiagC3.countP
          (fun d => rowKeep (mergedCols exDColsC3 exPColsC3)
            (mrowCells (matchRow exPatC3 exPColsC3.length d))),
         exDiagC3.length) ∧
    (leftJoin exDiagC3 exPatC3 exPColsC3.length).length = exDiagC3.length :=
  c3_match_report exPatC3 exDiagC3 exDColsC3 exPColsC3 (by decide)

-- ### Claim C8 — validation results

/-- **C8 counterexample.** On an empty frame `validate_data` returns early
with only the emptiness error and an EMPTY `info` dictionary, so the
structural metrics are NOT computed unconditionally for every input. -/
theorem c8_validation_counterexample :
    (validate_data ⟨[codes "REGISTRY ID"], []⟩).info = none := rfl

/-- **C8 (amended).** Validation fails (is_valid false, non-empty errors)
whenever the identifier column is absent; with the identifier present on a
nonempty frame the result is valid with no errors, duplicated identifiers
producing only a warning; and the `info` metrics — row count, column count,
total null count, duplicate row count, per-column type classification — are
computed for every NONEMPTY input (an empty frame returns early with only
the emptiness error and empty `info`). -/
theorem c8_validation (t : Table) :
    (codes "REGISTRY ID" ∉ t.cols →
      (validate_data t).is_valid = false ∧ (validate_data t).errors ≠ []) ∧
    (t.isEmptyT = false → codes "REGISTRY ID" ∈ t.cols →
      (validate_data t).is_valid = true ∧ (validate_data t).errors = [] ∧
      (0 < dupCount (idColVals t) → (validate_data t).warnings ≠ [])) ∧
    (t.isEmptyT = false →
      (validate_data t).info = some
        ⟨t.rows.length, t.cols.length, countNulls t, dupCount t.rows,
         (List.range t.cols.length).map
           (fun i => (t.cols.getD i [], classifyCol (colValues t i)))⟩) := by
  unfold validate_data
  by_cases hE : t.isEmptyT = true
  · rw [if_pos hE]
    refine ⟨fun _ => ⟨rfl, by simp⟩, fun h _ => ?_, fun h => ?_⟩
    · rw [h] at hE
      exact absurd hE (by simp)
    · rw [h] at hE
      exact absurd hE (by simp)
  · rw [if_neg hE]
    by_cases hR : codes "REGISTRY ID" ∈ t.cols
    · rw [if_pos hR]
      refine ⟨fun hn => absurd hR hn, fun _ _ => ⟨rfl, rfl, ?_⟩, fun _ => rfl⟩
      intro hd
      show (if 0 < dupCount (idColVals t) then _ else []) ≠ []
      rw [if_pos hd]
      simp
    · rw [if_neg hR]
      exact ⟨fun _ => ⟨rfl, by simp⟩, fun _ hR2 => absurd hR2 hR, fun _ => rfl⟩

def exTableC8 : Table := ⟨[codes "REGISTRY ID"], [[Value.intV 1], [Value.intV 1]]⟩

theorem c8_validation_witness :
    (validate_data exTableC8).is_valid = true ∧
    (validate_data exTableC8).errors = [] ∧
    (validate_data exTableC8).warnings ≠ [] ∧
    (validate_data ⟨[codes "X"], [[Value.intV 1]]⟩).is_valid = false :=
  ⟨((c8_validation exTableC8).2.1 (by decide) (by decide)).1,
   ((c8_validation exTableC8).2.1 (by decide) (by decide)).2.1,
   ((c8_validation exTableC8).2.1 (by decide) (by decide)).2.2 (by decide),
   ((c8_validation ⟨[codes "X"], [[Value.intV 1]]⟩).1 (by decide)).1⟩

-- ### Claim C10 — identifier dropping and stringification

theorem filter_ne_null_length (rows : List (Value × List (Option Value))) :
    (rows.filter (fun r => r.1 ≠ Value.nullV)).length
      + rows.countP (fun r => r.1 = Value.nullV) = rows.length := by
  rw [← List.countP_eq_length_filter]
  have h2 : rows.countP (fun r => r.1 = Value.nullV)
      = rows.countP (fun a => decide ¬(decide (a.1 ≠ Value.nullV) = true)) := by
    apply List.countP_congr
    intro r _
    by_cases h : r.1 = Value.nullV
    · simp [h]
    · simp [h]
  rw [h2]
  exact (List.length_eq_countP_add_countP _ rows).symm

/-- **C10.** Identifier validation never errors on null-identifier rows (with
the identifier column present it returns `.ok`), drops exactly the
null-identifier rows (surviving rows plus null rows account for every input
row), stringifies every surviving identifier, and the join then matches on
string equality: integer 1 stringifies to "1" and matches text "1", while
float 1.0 stringifies to "1.0" and does not. -/
theorem c10_identifier_stringification :
    (∀ (msg : List Nat) (cols : List (List Nat))
        (rows : List (Value × List (Option Value))),
      codes "REGISTRY ID" ∈ cols →
      validateIds msg cols rows
        = .ok ((rows.filter (fun r => r.1 ≠ Value.nullV)).map
            (fun r => ⟨pyStr r.1, r.2⟩)) ∧
      ((rows.filter (fun r => r.1 ≠ Value.nullV)).map
          (fun r => (⟨pyStr r.1, r.2⟩ : TRow))).length
          + rows.countP (fun r => r.1 = Value.nullV)
        = rows.length) ∧
    pyStr (Value.intV 1) = codes "1" ∧
    pyStr (Value.floatV 1) = codes "1.0" ∧
    pyStr (Value.floatV 1) ≠ pyStr (Value.strV (codes "1")) ∧
    leftJoin [⟨pyStr (Value.intV 1), []⟩]
      [⟨pyStr (Value.strV (codes "1")), [some (Value.intV 7)]⟩] 1
      = [⟨codes "1", [], [some (Value.intV 7)]⟩] ∧
    leftJoin [⟨pyStr (Value.floatV 1), []⟩]
      [⟨pyStr (Value.strV (codes "1")), [some (Value.intV 7)]⟩] 1
      = [⟨codes "1.0", [], [none]⟩] := by
  refine ⟨?_, by decide, by decide, by decide, by decide, by decide⟩
  intro msg cols rows hR
  constructor
  · unfold validateIds
    rw [if_pos hR]
  · rw [List.length_map]
    exact filter_ne_null_length rows

theorem c10_identifier_stringification_witness :
    validateIds (codes "e") [codes "REGISTRY ID"]
        [(Value.nullV, []), (Value.intV 1, [])]
      = .ok [⟨codes "1", []⟩] ∧
    ((([(Value.nullV, ([] : List (Option Value))), (Value.intV 1, [])].filter
        (fun r => r.1 ≠ Value.nullV)).map
          (fun r => (⟨pyStr r.1, r.2⟩ : TRow))).length
        + [(Value.nullV, ([] : List (Option Value))), (Value.intV 1, [])].countP
            (fun r => r.1 = Value.nullV))
      = 2 := by
  have h := c10_identifier_stringification.1 (codes "e") [codes "REGISTRY ID"]
    [(Value.nullV, []), (Value.intV 1, [])] (by decide)
  exact ⟨h.1.trans (by rfl), h.2.trans (by rfl)⟩

-- ### Claim C9 — summary report aggregation

def exRowsC9 : List SRow :=
  [⟨codes "A", some (codes "MALE"), none⟩,
   ⟨codes "A", some (codes "MALE"), some 50⟩]

/-- **C9 counterexample.** An identifier whose first merged row has a null age
and whose later row has age 50: pandas `groupby(...).first()` takes the first
NON-NULL value, so the report's age mean is 50, while the claim's
first-occurrence aggregation yields no value at all. -/
theorem c9_summary_report_counterexample :
    reportAgeMean exRowsC9 = some 50 ∧ specAgeMeanFirstOcc exRowsC9 = none := by
  constructor
  · have h1 : ageSeries exRowsC9 = [50] := by decide
    rw [reportAgeMean, h1]
    show (if ([(50 : ℚ)].isEmpty) then none else some ([(50 : ℚ)].sum / [(50 : ℚ)].length)) = some 50
    norm_num
  · have h2 : specFirstOccAges exRowsC9 = [] := by decide
    rw [specAgeMeanFirstOcc, h2]
    rfl

/-- **C9 (amended).** Under unique patient identifiers (the PatientTable
invariant) every gender percentage is its count over the DISTINCT patient
count, and the age mean, minimum and maximum are over one value per distinct
identifier, taking the first NON-NULL age occurrence per identifier (an
identifier with only null ages contributes no value). -/
theorem c9_summary_report (rows : List SRow) (patIds : List (List Nat))
    (hN : patIds.Nodup) :
    (∀ g, reportGenderPct rows patIds.length g
        = (genderCount rows g : ℚ) / ((dedupF patIds).length : ℚ) * 100) ∧
    reportAgeMean rows = meanQ ((dedupF (rows.map SRow.rid)).filterMap
        (fun i => ((rows.filter (fun r => r.rid = i)).filterMap SRow.age).head?)) ∧
    reportAgeMin rows = minQ ((dedupF (rows.map SRow.rid)).filterMap
        (fun i => ((rows.filter (fun r => r.rid = i)).filterMap SRow.age).head?)) ∧
    reportAgeMax rows = maxQ ((dedupF (rows.map SRow.rid)).filterMap
        (fun i => ((rows.filter (fun r => r.rid = i)).filterMap SRow.age).head?)) := by
  have hd : dedupF patIds = patIds := dedupF_of_nodup patIds hN
  have hfun : groupFirstAge rows
      = fun i => ((rows.filter (fun r => r.rid = i)).filterMap SRow.age).head? := by
    funext i
    unfold groupFirstAge
    exact findSome?_eq_head?_filterMap SRow.age _
  have hseries : ageSeries rows = (dedupF (rows.map SRow.rid)).filterMap
      (fun i => ((rows.filter (fun r => r.rid = i)).filterMap SRow.age).head?) := by
    unfold ageSeries
    rw [hfun]
  refine ⟨?_, ?_, ?_, ?_⟩
  · intro g
    unfold reportGenderPct
    rw [hd]
  · rw [reportAgeMean, hseries]
  · rw [reportAgeMin, hseries]
  · rw [reportAgeMax, hseries]

theorem c9_summary_report_witness :
    reportGenderPct exRowsC9 1 (codes "MALE")
      = (genderCount exRowsC9 (codes "MALE") : ℚ)
          / ((dedupF [codes "A"]).length : ℚ) * 100 ∧
    reportAgeMean exRowsC9 = meanQ ((dedupF (exRowsC9.map SRow.rid)).filterMap
        (fun i => ((exRowsC9.filter (fun r => r.rid = i)).filterMap SRow.age).head?)) :=
  ⟨(c9_summary_report exRowsC9 [codes "A"] (by decide)).1 (codes "MALE"),
   (c9_summary_report exRowsC9 [codes "A"] (by decide)).2.1⟩
